import Mathlib

/-!
Shallow embedding of the st7920 LCD driver (src/src/lib.rs) for checking the
specification's claims. Machine integers (u8, usize) are modelled as Nat with
explicit wrap (% 256) where u8 overflow can occur; the driver's hardware
collaborators (SPI bus, digital pins, delay provider) are modelled as an event
trace listing each collaborator call in order.
-/

namespace ST7920

/-- Display width in pixels (lib.rs line 41). -/
def WIDTH : Nat := 128

/-- Display height in pixels (lib.rs line 42). -/
def HEIGHT : Nat := 64

/-- Bytes per buffer row: WIDTH / 8 (lib.rs line 43). -/
def ROW_SIZE : Nat := WIDTH / 8

/-- Total buffer size in bytes: ROW_SIZE * HEIGHT = 1024 (lib.rs line 44). -/
def BUFFER_SIZE : Nat := ROW_SIZE * HEIGHT

/-- Pixels per controller column-address step (lib.rs line 45). -/
def X_ADDR_DIV : Nat := 16

/-- ST7920 instruction opcodes (lib.rs lines 30-39). -/
inductive Instruction where
  | BasicFunction
  | ExtendedFunction
  | ClearScreen
  | EntryMode
  | DisplayOnCursorOff
  | GraphicsOn
  | SetGraphicsAddress
deriving DecidableEq

/-- The numeric opcode of each instruction, as given by the Rust enum
discriminants (lib.rs lines 30-39); to_u8() on this enum always succeeds. -/
def Instruction.toU8 : Instruction → Nat
  | .BasicFunction => 0x30
  | .ExtendedFunction => 0x34
  | .ClearScreen => 0x01
  | .EntryMode => 0x06
  | .DisplayOnCursorOff => 0x0C
  | .GraphicsOn => 0x36
  | .SetGraphicsAddress => 0x80

/-- The two digital output pins the driver drives. -/
inductive Pin where
  | rst
  | cs
deriving DecidableEq

/-- One collaborator call: an SPI byte-sequence write, a digital pin drive,
or a blocking microsecond delay. -/
inductive Event where
  | spiWrite (bytes : List Nat)
  | setHigh (p : Pin)
  | setLow (p : Pin)
  | delayUs (us : Nat)
deriving DecidableEq

/-- Driver state (lib.rs lines 47-66): whether a chip-select pin was supplied
(cs: Option of CS), the 180-degree flip flag, and the 1024-byte pixel buffer
(each element one u8). -/
structure Driver where
  hasCS : Bool
  flip : Bool
  buffer : List Nat
deriving DecidableEq

/-- new(spi, rst, cs, flip): buffer zero-initialized (lib.rs lines 85-95). -/
def Driver.new (hasCS flip : Bool) : Driver :=
  { hasCS := hasCS, flip := flip, buffer := List.replicate BUFFER_SIZE 0 }

/-- enable_cs (lib.rs lines 97-106): if a CS pin is present, drive it high and
delay 1 microsecond; otherwise do nothing. -/
def enableCsTrace (d : Driver) : List Event :=
  if d.hasCS then [.setHigh .cs, .delayUs 1] else []

/-- disable_cs (lib.rs lines 108-117): if a CS pin is present, delay
1 microsecond and then drive the pin high (sic: the source calls set_high
here, exactly as enable_cs does). -/
def disableCsTrace (d : Driver) : List Event :=
  if d.hasCS then [.delayUs 1, .setHigh .cs] else []

/-- write_command_param (lib.rs lines 162-176): send the 3-byte command frame
[0xF8, (cmd|param) & 0xF0, ((cmd|param) << 4) & 0xF0] on the bus. The u8 shift
is modelled as multiplication by 16 modulo 256. -/
def writeCommandParamTrace (command : Instruction) (param : Nat) : List Event :=
  let commandParam := command.toU8 ||| param
  [.spiWrite [0xF8, commandParam &&& 0xF0, ((commandParam <<< 4) % 256) &&& 0xF0]]

/-- write_command (lib.rs lines 154-160): write_command_param with param 0. -/
def writeCommandTrace (command : Instruction) : List Event :=
  writeCommandParamTrace command 0

/-- write_data (lib.rs lines 178-187): send the 3-byte data frame
[0xFA, data & 0xF0, (data << 4) & 0xF0] on the bus. -/
def writeDataTrace (data : Nat) : List Event :=
  [.spiWrite [0xFA, data &&& 0xF0, ((data <<< 4) % 256) &&& 0xF0]]

/-- The pair of SetGraphicsAddress parameters computed by set_address
(lib.rs lines 189-213): vertical (row) address first, horizontal (column)
address second, with HALF_HEIGHT = HEIGHT / 2. -/
def setAddressPair (x y : Nat) : Nat × Nat :=
  (if y < HEIGHT / 2 then y else y - HEIGHT / 2,
   if y < HEIGHT / 2 then x / X_ADDR_DIV else x / X_ADDR_DIV + WIDTH / X_ADDR_DIV)

/-- set_address (lib.rs lines 189-213): two SetGraphicsAddress command frames,
row address then column address. -/
def setAddressTrace (x y : Nat) : List Event :=
  writeCommandParamTrace .SetGraphicsAddress (setAddressPair x y).1 ++
  writeCommandParamTrace .SetGraphicsAddress (setAddressPair x y).2

/-- hard_reset (lib.rs lines 143-152): reset pin low, 40ms, high, 40ms. -/
def hardResetTrace : List Event :=
  [.setLow .rst, .delayUs (40 * 1000), .setHigh .rst, .delayUs (40 * 1000)]

/-- init (lib.rs lines 120-141): enable CS, hard reset, then the fixed command
sequence with its settle delays, then disable CS. -/
def initTrace (d : Driver) : List Event :=
  enableCsTrace d ++
  hardResetTrace ++
  writeCommandTrace .BasicFunction ++ [.delayUs 200] ++
  writeCommandTrace .DisplayOnCursorOff ++ [.delayUs 100] ++
  writeCommandTrace .ClearScreen ++ [.delayUs (10 * 1000)] ++
  writeCommandTrace .EntryMode ++ [.delayUs 100] ++
  writeCommandTrace .ExtendedFunction ++ [.delayUs (10 * 1000)] ++
  writeCommandTrace .GraphicsOn ++ [.delayUs (100 * 1000)] ++
  disableCsTrace d

/-- The orientation transform applied to an x coordinate by
set_pixel_unchecked when the flip flag is set (lib.rs lines 341-345). -/
def flipX (flip : Bool) (x : Nat) : Nat :=
  if flip then (WIDTH - 1) - x else x

/-- The orientation transform applied to a y coordinate by
set_pixel_unchecked when the flip flag is set (lib.rs lines 341-345). -/
def flipY (flip : Bool) (y : Nat) : Nat :=
  if flip then (HEIGHT - 1) - y else y

/-- The buffer byte index addressed by set_pixel_unchecked
(lib.rs line 346): idx = y * ROW_SIZE + x / 8 after the flip transform. -/
def pixelIndex (flip : Bool) (x y : Nat) : Nat :=
  flipY flip y * ROW_SIZE + flipX flip x / 8

/-- The bit mask used by set_pixel_unchecked (lib.rs line 347):
0x80 >> (x % 8) after the flip transform. -/
def pixelMask (flip : Bool) (x : Nat) : Nat :=
  0x80 >>> (flipX flip x % 8)

/-- set_pixel_unchecked (lib.rs lines 341-353): OR the mask in when val is
non-zero, AND with the u8 complement of the mask when val is zero. -/
def setPixelUnchecked (d : Driver) (x y val : Nat) : Driver :=
  if val ≠ 0 then
    { d with
      buffer := d.buffer.set (pixelIndex d.flip x y) (d.buffer.getD (pixelIndex d.flip x y) 0 ||| pixelMask d.flip x) }
  else
    { d with
      buffer := d.buffer.set (pixelIndex d.flip x y) (d.buffer.getD (pixelIndex d.flip x y) 0 &&& (0xFF ^^^ pixelMask d.flip x)) }

/-- set_pixel (lib.rs lines 327-331): bounds-checked entry point; off-canvas
coordinates are silently ignored. -/
def setPixel (d : Driver) (x y val : Nat) : Driver :=
  if x < WIDTH ∧ y < HEIGHT then setPixelUnchecked d x y val else d

/-- clear_buffer (lib.rs lines 240-244): zero every buffer byte. -/
def clearBuffer (d : Driver) : Driver :=
  { d with buffer := List.replicate BUFFER_SIZE 0 }

/-- flush (lib.rs lines 356-377): for each of the 32 row addresses, one
set_address command pair, then the 16 bytes of the top-half row followed by
the 16 bytes of the bottom-half row. -/
def flushTrace (d : Driver) : List Event :=
  enableCsTrace d ++
  ((List.range (HEIGHT / 2)).map (fun y =>
    setAddressTrace 0 y ++
    ((List.range ROW_SIZE).map (fun x =>
      writeDataTrace (d.buffer.getD (y * ROW_SIZE + x) 0))).flatten ++
    ((List.range ROW_SIZE).map (fun x =>
      writeDataTrace (d.buffer.getD (y * ROW_SIZE + HEIGHT / 2 * ROW_SIZE + x) 0))).flatten)).flatten ++
  disableCsTrace d

/-- flush modelled with its state effect (lib.rs lines 356-377): the method
takes &mut self but only reads self.buffer, so the driver state is returned
unchanged alongside the emitted trace. -/
def flush (d : Driver) : Driver × List Event :=
  (d, flushTrace d)

/-- The rounded-outward horizontal strip computed by flush_region
(lib.rs lines 411-418) from the flip-adjusted left edge adjX and the clamped
width w: left = adjX - adjX % 16; right = ((adjX + w - 1) rounded down to a
multiple of 16) + 16; then left is pulled back one step if left > adjX
(the source's rightmost-pixel guard). Returns (left, right). -/
def stripBounds (adjX w : Nat) : Nat × Nat :=
  let left := adjX - adjX % X_ADDR_DIV
  let right := (adjX + w) - 1
  let right := right - right % X_ADDR_DIV
  let right := right + X_ADDR_DIV
  let left := if left > adjX then left - X_ADDR_DIV else left
  (left, right)

/-- The body of flush_region after clamping and flip adjustment
(lib.rs lines 403-432): enable CS, one extra set_address (line 421), then for
each row a set_address followed by the data bytes in columns
left/8 .. right/8 - 1, then disable CS. Depends on the driver only through
hasCS (for the CS bracket) and the buffer contents. -/
def flushRegionCore (hasCS : Bool) (buf : List Nat) (adjX y w h : Nat) : List Event :=
  let left := (stripBounds adjX w).1
  let right := (stripBounds adjX w).2
  (if hasCS then [.setHigh .cs, .delayUs 1] else []) ++
  setAddressTrace adjX y ++
  ((List.range h).map (fun r =>
    setAddressTrace adjX (y + r) ++
    ((List.range (right / 8 - left / 8)).map (fun i =>
      writeDataTrace (buf.getD ((y + r) * ROW_SIZE + (left / 8 + i)) 0))).flatten)).flatten ++
  (if hasCS then [.delayUs 1, .setHigh .cs] else [])

/-- flush_region after the bounds clamp (lib.rs lines 403-409): apply the
flip transform to the whole rectangle and emit the core trace. -/
def flushRegionClamped (d : Driver) (x y w h : Nat) : List Event :=
  flushRegionCore d.hasCS d.buffer
    (if d.flip then WIDTH - (x + w) else x)
    (if d.flip then HEIGHT - (y + h) else y) w h

/-- flush_region (lib.rs lines 385-435): if the top-left is on screen and the
region has positive width and height, trim w and h to the right and bottom
edges (x.saturating_add(w) > WIDTH is equivalent to x + w > WIDTH for u8
inputs), then apply the flip transform and emit the core trace; otherwise do
nothing. -/
def flushRegionTrace (d : Driver) (x y w h : Nat) : List Event :=
  if x < WIDTH ∧ y < HEIGHT ∧ 0 < w ∧ 0 < h then
    flushRegionClamped d x y
      (if x + w > WIDTH then WIDTH - x else w)
      (if y + h > HEIGHT then HEIGHT - y else h)
  else []

/-- The list of buffer indices written by clear_buffer_region
(lib.rs lines 262-319): after the same clamping and flip adjustment as
flush_region, start = adjX / 8, end = (adjX + w) / 8 + 1 (named endCol here
because end is a reserved word), and for each of the h rows every index
row_start + c for c in start .. endCol - 1 is AND-masked in place. -/
def clearRegionIndices (flip : Bool) (x y w h : Nat) : List Nat :=
  if x < WIDTH ∧ y < HEIGHT ∧ 0 < w ∧ 0 < h then
    let w := if x + w > WIDTH then WIDTH - x else w
    let h := if y + h > HEIGHT then HEIGHT - y else h
    let y' := if flip then HEIGHT - (y + h) else y
    let adjX := if flip then WIDTH - (x + w) else x
    let start := adjX / 8
    let endCol := (adjX + w) / 8 + 1
    ((List.range h).map (fun r =>
      (List.range (endCol - start)).map (fun i =>
        (y' + r) * ROW_SIZE + (start + i)))).flatten
  else []

/-- Result semantics of a trace: the source issues the collaborator calls of
the happy-path trace one at a time and aborts at the first failing call, so
running a trace against a success oracle yields Ok with the performed calls,
or the first failing event as the error. -/
def runEvents (ok : Event → Bool) : List Event → Except Event (List Event)
  | [] => .ok []
  | e :: es =>
    if ok e then
      match runEvents ok es with
      | .ok t => .ok (e :: t)
      | .error f => .error f
    else .error e

/-- The bytes transmitted on the SPI bus by a trace, in order. -/
def spiBytes (t : List Event) : List Nat :=
  t.foldr (fun e acc => match e with | .spiWrite bs => bs ++ acc | _ => acc) []

/-- A sample driver with a CS pin, no flip, zeroed buffer. -/
def sampleDriver : Driver := Driver.new true false

/-! ## Helper lemmas -/

/-- Setting an in-range list element and reading it back yields the value. -/
theorem getD_set_self (l : List Nat) (i v : Nat) (h : i < l.length) :
    (l.set i v).getD i 0 = v := by
  simp [List.getD_eq_getElem?_getD, List.getElem?_set_self', List.getElem?_eq_getElem, h]

set_option maxRecDepth 8192 in
/-- u8 bit arithmetic used by set_pixel_unchecked: for a byte b and a shift
s < 8, OR-ing in the mask 0x80 >> s and then AND-ing with its u8 complement
clears that bit, and if the bit was already clear the byte is unchanged. -/
theorem byteMaskFacts : ∀ b < 256, ∀ s < 8,
    ((b ||| (0x80 >>> s)) &&& (0xFF ^^^ (0x80 >>> s)) = b &&& (0xFF ^^^ (0x80 >>> s))) ∧
    (b &&& (0x80 >>> s) = 0 → b &&& (0xFF ^^^ (0x80 >>> s)) = b) := by decide

set_option maxRecDepth 8192 in
/-- u8 nibble arithmetic used by the frame encoders: for v < 256,
v & 0xF0 is the high nibble shifted into place and ((v << 4) % 256) & 0xF0
is the low nibble shifted into place. -/
theorem nibbleFacts : ∀ v < 256,
    v &&& 0xF0 = v / 16 * 16 ∧ ((v <<< 4) % 256) &&& 0xF0 = v % 16 * 16 := by decide

/-- OR of two bytes is a byte. -/
theorem or_lt_256 (a b : Nat) (ha : a < 256) (hb : b < 256) : a ||| b < 256 :=
  Nat.or_lt_two_pow (n := 8) ha hb

/-- The pixel byte index is within the 1024-byte buffer for on-canvas
coordinates, for either flip setting. -/
theorem pixelIndex_lt (fl : Bool) (x y : Nat) (hx : x < WIDTH) (hy : y < HEIGHT) :
    pixelIndex fl x y < BUFFER_SIZE := by
  have hW : WIDTH = 128 := rfl
  have hH : HEIGHT = 64 := rfl
  have hR : ROW_SIZE = 16 := rfl
  have hB : BUFFER_SIZE = 1024 := rfl
  rw [hW] at hx
  rw [hH] at hy
  unfold pixelIndex flipX flipY
  rw [hW, hH, hR, hB]
  split <;> omega

/-- Unfolding flush_region when the region guard holds. -/
theorem flushRegionTrace_pos (d : Driver) (x y w h : Nat)
    (hx : x < WIDTH) (hy : y < HEIGHT) (hw : 0 < w) (hh : 0 < h) :
    flushRegionTrace d x y w h =
      flushRegionClamped d x y
        (if x + w > WIDTH then WIDTH - x else w)
        (if y + h > HEIGHT then HEIGHT - y else h) := by
  unfold flushRegionTrace
  exact if_pos ⟨hx, hy, hw, hh⟩

/-- Unfolding flush_region when the region guard fails. -/
theorem flushRegionTrace_empty (d : Driver) (x y w h : Nat)
    (hn : ¬(x < WIDTH ∧ y < HEIGHT ∧ 0 < w ∧ 0 < h)) :
    flushRegionTrace d x y w h = [] := by
  unfold flushRegionTrace
  exact if_neg hn

/-! ## Claims -/

/-- C1: for every region accepted by flush_region (positive width, inside the
display after clamping), the per-row horizontal strip [left, right) computed by
flush_region starts and ends on 16-pixel (2-byte) boundaries, starts at or
before the region's left edge, ends at or after the region's right edge, and
stays within the display width — whole 16-pixel strips covering the requested
span, never less. -/
theorem claim_C1 (adjX w : Nat) (hw : 0 < w) (hle : adjX + w ≤ WIDTH) :
    (stripBounds adjX w).1 ≤ adjX ∧
    (stripBounds adjX w).1 % 16 = 0 ∧
    adjX + w ≤ (stripBounds adjX w).2 ∧
    (stripBounds adjX w).2 % 16 = 0 ∧
    (stripBounds adjX w).2 ≤ WIDTH := by
  clear hw
  simp only [stripBounds, WIDTH, X_ADDR_DIV] at *
  rw [if_neg (by omega)]
  omega

/-- Witness for C1 at the concrete strip x = 20, w = 16: bounds (16, 48). -/
theorem claim_C1_witness :
    (0 < 16 ∧ 20 + 16 ≤ WIDTH) ∧
    ((stripBounds 20 16).1 ≤ 20 ∧
     (stripBounds 20 16).1 % 16 = 0 ∧
     20 + 16 ≤ (stripBounds 20 16).2 ∧
     (stripBounds 20 16).2 % 16 = 0 ∧
     (stripBounds 20 16).2 ≤ WIDTH) :=
  ⟨⟨by decide, by decide⟩, claim_C1 20 16 (by decide) (by decide)⟩

/-- C2: for every on-canvas pixel coordinate, the address pair computed by
set_address is (y, x/16) on the top half and (y - HEIGHT/2, x/16 + WIDTH/16)
on the bottom half; in particular y = 0 gives (0, x/16), y = HEIGHT/2 gives
(0, x/16 + WIDTH/16), and the half-screen switch happens exactly between
y = HEIGHT/2 - 1 and y = HEIGHT/2; the trace is the two SetGraphicsAddress
frames carrying that pair. -/
theorem claim_C2 (x y : Nat) (hx : x < WIDTH) (hy : y < HEIGHT) :
    setAddressPair x y =
      (if y < HEIGHT / 2 then y else y - HEIGHT / 2,
       if y < HEIGHT / 2 then x / 16 else x / 16 + WIDTH / 16) ∧
    setAddressPair x 0 = (0, x / 16) ∧
    setAddressPair x (HEIGHT / 2) = (0, x / 16 + WIDTH / 16) ∧
    setAddressPair x (HEIGHT / 2 - 1) = (HEIGHT / 2 - 1, x / 16) ∧
    setAddressTrace x y =
      writeCommandParamTrace .SetGraphicsAddress (setAddressPair x y).1 ++
      writeCommandParamTrace .SetGraphicsAddress (setAddressPair x y).2 := by
  refine ⟨rfl, ?_, ?_, ?_, rfl⟩ <;>
    simp [setAddressPair, HEIGHT, WIDTH, X_ADDR_DIV]

/-- Witness for C2 at (x, y) = (20, 32): row 0, column 20/16 + 8 = 9. -/
theorem claim_C2_witness :
    (20 < WIDTH ∧ 32 < HEIGHT) ∧
    setAddressPair 20 32 = (if 32 < HEIGHT / 2 then 32 else 32 - HEIGHT / 2,
      if 32 < HEIGHT / 2 then 20 / 16 else 20 / 16 + WIDTH / 16) ∧
    setAddressPair 20 0 = (0, 20 / 16) ∧
    setAddressPair 20 (HEIGHT / 2) = (0, 20 / 16 + WIDTH / 16) ∧
    setAddressPair 20 (HEIGHT / 2 - 1) = (HEIGHT / 2 - 1, 20 / 16) ∧
    setAddressTrace 20 32 =
      writeCommandParamTrace .SetGraphicsAddress (setAddressPair 20 32).1 ++
      writeCommandParamTrace .SetGraphicsAddress (setAddressPair 20 32).2 :=
  ⟨⟨by decide, by decide⟩, claim_C2 20 32 (by decide) (by decide)⟩

/-- C3: every command transmission is exactly the 3-byte frame
[0xF8, (cmd|param) & 0xF0, ((cmd|param) << 4) & 0xF0] and every data
transmission exactly [0xFA, data & 0xF0, (data << 4) & 0xF0]; equivalently
the payload travels as high nibble then low nibble, each shifted into the
upper half of its bus byte. -/
theorem claim_C3 (c : Instruction) (param data : Nat)
    (hp : param < 256) (hd : data < 256) :
    writeCommandParamTrace c param =
      [.spiWrite [0xF8, (c.toU8 ||| param) &&& 0xF0,
        (((c.toU8 ||| param) <<< 4) % 256) &&& 0xF0]] ∧
    writeDataTrace data =
      [.spiWrite [0xFA, data &&& 0xF0, ((data <<< 4) % 256) &&& 0xF0]] ∧
    writeCommandParamTrace c param =
      [.spiWrite [0xF8, (c.toU8 ||| param) / 16 * 16, (c.toU8 ||| param) % 16 * 16]] ∧
    writeDataTrace data =
      [.spiWrite [0xFA, data / 16 * 16, data % 16 * 16]] := by
  have hcp : c.toU8 ||| param < 256 :=
    or_lt_256 _ _ (by cases c <;> decide) hp
  have h1 := nibbleFacts _ hcp
  have h2 := nibbleFacts _ hd
  refine ⟨rfl, rfl, ?_, ?_⟩ <;>
    simp only [writeCommandParamTrace, writeDataTrace, h1.1, h1.2, h2.1, h2.2]

/-- Witness for C3 with the SetGraphicsAddress opcode, param 0x23, data 0xAB:
0x80 | 0x23 = 0xA3 so the command frame is [0xF8, 0xA0, 0x30] and the data
frame is [0xFA, 0xA0, 0xB0]. -/
theorem claim_C3_witness :
    (0x23 < 256 ∧ 0xAB < 256) ∧
    (writeCommandParamTrace .SetGraphicsAddress 0x23 =
      [.spiWrite [0xF8, (Instruction.SetGraphicsAddress.toU8 ||| 0x23) &&& 0xF0,
        (((Instruction.SetGraphicsAddress.toU8 ||| 0x23) <<< 4) % 256) &&& 0xF0]] ∧
     writeDataTrace 0xAB =
      [.spiWrite [0xFA, 0xAB &&& 0xF0, ((0xAB <<< 4) % 256) &&& 0xF0]] ∧
     writeCommandParamTrace .SetGraphicsAddress 0x23 =
      [.spiWrite [0xF8, (Instruction.SetGraphicsAddress.toU8 ||| 0x23) / 16 * 16,
        (Instruction.SetGraphicsAddress.toU8 ||| 0x23) % 16 * 16]] ∧
     writeDataTrace 0xAB =
      [.spiWrite [0xFA, 0xAB / 16 * 16, 0xAB % 16 * 16]]) :=
  ⟨⟨by decide, by decide⟩, claim_C3 .SetGraphicsAddress 0x23 0xAB (by decide) (by decide)⟩

/-- C4: for every off-canvas coordinate (x ≥ WIDTH or y ≥ HEIGHT) and every
value, set_pixel is a no-op: the driver (in particular its entire buffer) is
returned byte-for-byte unchanged and no failure is reported. -/
theorem claim_C4 (d : Driver) (x y val : Nat) (h : WIDTH ≤ x ∨ HEIGHT ≤ y) :
    setPixel d x y val = d := by
  unfold setPixel
  rw [if_neg]
  rintro ⟨h1, h2⟩
  rcases h with h | h <;> omega

/-- Witness for C4 at x = 128 (= WIDTH), y = 5. -/
theorem claim_C4_witness :
    (WIDTH ≤ 128 ∨ HEIGHT ≤ 5) ∧ setPixel sampleDriver 128 5 1 = sampleDriver :=
  ⟨Or.inl (by decide), claim_C4 sampleDriver 128 5 1 (Or.inl (by decide))⟩

/-- C5: flush_region with zero width, zero height, or an off-screen top-left
emits no collaborator call at all (no bus write, no pin drive, no delay) and
returns Ok under every success oracle; and for an on-screen top-left the
trace equals the trace of the region with w and h trimmed to the right and
bottom screen edges. -/
theorem claim_C5 (d : Driver) (x y w h : Nat) (ok : Event → Bool) :
    flushRegionTrace d x y 0 h = [] ∧
    flushRegionTrace d x y w 0 = [] ∧
    (WIDTH ≤ x ∨ HEIGHT ≤ y → flushRegionTrace d x y w h = []) ∧
    runEvents ok (flushRegionTrace d x y 0 h) = .ok [] ∧
    runEvents ok (flushRegionTrace d x y w 0) = .ok [] ∧
    (WIDTH ≤ x ∨ HEIGHT ≤ y → runEvents ok (flushRegionTrace d x y w h) = .ok []) ∧
    (x < WIDTH → y < HEIGHT →
      flushRegionTrace d x y w h =
        flushRegionTrace d x y (min w (WIDTH - x)) (min h (HEIGHT - y))) := by
  have a1 : flushRegionTrace d x y 0 h = [] := flushRegionTrace_empty d x y 0 h (by omega)
  have a2 : flushRegionTrace d x y w 0 = [] := flushRegionTrace_empty d x y w 0 (by omega)
  have a3 : WIDTH ≤ x ∨ HEIGHT ≤ y → flushRegionTrace d x y w h = [] :=
    fun hor => flushRegionTrace_empty d x y w h (by omega)
  refine ⟨a1, a2, a3, by rw [a1]; rfl, by rw [a2]; rfl,
    fun hor => by rw [a3 hor]; rfl, ?_⟩
  intro hx hy
  by_cases hw : 0 < w
  · by_cases hh : 0 < h
    · rw [flushRegionTrace_pos d x y w h hx hy hw hh,
        flushRegionTrace_pos d x y _ _ hx hy (by omega) (by omega)]
      have eW : (if x + w > WIDTH then WIDTH - x else w) =
          (if x + min w (WIDTH - x) > WIDTH then WIDTH - x else min w (WIDTH - x)) := by
        split_ifs <;> omega
      have eH : (if y + h > HEIGHT then HEIGHT - y else h) =
          (if y + min h (HEIGHT - y) > HEIGHT then HEIGHT - y else min h (HEIGHT - y)) := by
        split_ifs <;> omega
      rw [eW, eH]
    · rw [flushRegionTrace_empty d x y w h (by omega),
        flushRegionTrace_empty d x y _ _ (by omega)]
  · rw [flushRegionTrace_empty d x y w h (by omega),
      flushRegionTrace_empty d x y _ _ (by omega)]

/-- Witness for C5: a degenerate-width region, an off-screen top-left, and a
region overhanging the bottom-right corner, on the sample driver. -/
theorem claim_C5_witness :
    flushRegionTrace sampleDriver 3 4 0 6 = [] ∧
    flushRegionTrace sampleDriver 200 4 5 6 = [] ∧
    flushRegionTrace sampleDriver 100 60 50 10 =
      flushRegionTrace sampleDriver 100 60 (min 50 (WIDTH - 100)) (min 10 (HEIGHT - 60)) :=
  ⟨(claim_C5 sampleDriver 3 4 9 6 (fun _ => true)).1,
   (claim_C5 sampleDriver 200 4 5 6 (fun _ => true)).2.2.1 (Or.inl (by decide)),
   (claim_C5 sampleDriver 100 60 50 10 (fun _ => true)).2.2.2.2.2.2
     (by decide) (by decide)⟩

/-- The two branches of set_pixel on canvas, written as explicit buffer
updates at the pixel's byte index. -/
theorem setPixel_eq_set (d : Driver) (x y : Nat) (hx : x < WIDTH) (hy : y < HEIGHT) :
    setPixel d x y 1 = { d with
      buffer := d.buffer.set (pixelIndex d.flip x y) (d.buffer.getD (pixelIndex d.flip x y) 0 ||| pixelMask d.flip x) } ∧
    setPixel d x y 0 = { d with
      buffer := d.buffer.set (pixelIndex d.flip x y) (d.buffer.getD (pixelIndex d.flip x y) 0 &&& (0xFF ^^^ pixelMask d.flip x)) } := by
  unfold setPixel setPixelUnchecked
  rw [if_pos (And.intro hx hy), if_pos (And.intro hx hy)]
  exact ⟨if_pos one_ne_zero, if_neg (by simp)⟩

/-- C6 counterexample: with the addressed bit already set in the starting
buffer (byte 0 = 0x80, pixel (0,0), no flip), set_pixel(0,0,1) followed by
set_pixel(0,0,0) does not restore the original buffer byte: it leaves 0x00
where the original byte was 0x80. -/
theorem claim_C6_cex :
    ¬ ((setPixel (setPixel
        { hasCS := false, flip := false,
          buffer := (List.replicate BUFFER_SIZE 0).set 0 0x80 } 0 0 1) 0 0 0).buffer.getD 0 0 =
      ({ hasCS := false, flip := false,
          buffer := (List.replicate BUFFER_SIZE 0).set 0 0x80 } : Driver).buffer.getD 0 0) := by
  decide

/-- C6 (amended): for every in-bounds (x, y) and every well-formed starting
buffer in which the addressed pixel's bit is clear, set_pixel(x, y, 1)
followed by set_pixel(x, y, 0) restores the original buffer byte at that
location. (As originally stated — for every starting buffer state — the
claim fails: when the bit is already set, the pair of calls clears it.) -/
theorem claim_C6 (d : Driver) (x y : Nat) (hx : x < WIDTH) (hy : y < HEIGHT)
    (hlen : d.buffer.length = BUFFER_SIZE)
    (hbyte : d.buffer.getD (pixelIndex d.flip x y) 0 < 256)
    (hbit : d.buffer.getD (pixelIndex d.flip x y) 0 &&& pixelMask d.flip x = 0) :
    (setPixel (setPixel d x y 1) x y 0).buffer.getD (pixelIndex d.flip x y) 0 =
      d.buffer.getD (pixelIndex d.flip x y) 0 := by
  obtain ⟨cs, fl, buf⟩ := d
  dsimp only at *
  have hidx : pixelIndex fl x y < buf.length := by
    rw [hlen]; exact pixelIndex_lt fl x y hx hy
  rw [(setPixel_eq_set ⟨cs, fl, buf⟩ x y hx hy).1]
  dsimp only
  rw [(setPixel_eq_set ⟨cs, fl,
    buf.set (pixelIndex fl x y) (buf.getD (pixelIndex fl x y) 0 ||| pixelMask fl x)⟩ x y hx hy).2]
  dsimp only
  rw [getD_set_self buf _ _ hidx]
  rw [getD_set_self _ _ _ (by rw [List.length_set]; exact hidx)]
  have hs : flipX fl x % 8 < 8 := Nat.mod_lt _ (by decide)
  have hfacts := byteMaskFacts _ hbyte (flipX fl x % 8) hs
  have hmask : pixelMask fl x = 0x80 >>> (flipX fl x % 8) := rfl
  rw [hmask] at hbit ⊢
  rw [hfacts.1, hfacts.2 hbit]

set_option maxRecDepth 8192 in
/-- Witness for C6 (amended) at pixel (20, 20) on the zeroed sample buffer. -/
theorem claim_C6_witness :
    (setPixel (setPixel sampleDriver 20 20 1) 20 20 0).buffer.getD
        (pixelIndex sampleDriver.flip 20 20) 0 =
      sampleDriver.buffer.getD (pixelIndex sampleDriver.flip 20 20) 0 :=
  claim_C6 sampleDriver 20 20 (by decide) (by decide)
    (by simp [sampleDriver, Driver.new]) (by decide) (by decide)

/-- C7: the CS bracket is broken in the source. On a driver constructed with
a chip-select pin, the init transaction does begin with a CS assertion
followed by the 1-microsecond settle delay, and does end with a
1-microsecond delay followed by a drive of the CS pin — but that final drive
is set_high, identical to the assertion (disable_cs, lib.rs line 114), and
the trace never drives the CS pin low, so the pin is never returned to the
inactive level as the claim requires. -/
theorem claim_C7_bug :
    (initTrace sampleDriver).take 2 = [.setHigh .cs, .delayUs 1] ∧
    (initTrace sampleDriver).reverse.take 2 = [.setHigh .cs, .delayUs 1] ∧
    Event.setLow .cs ∉ initTrace sampleDriver := by
  decide

/-- C8: for every buffer and every region contained in the display, the byte
sequence transmitted by flush_region with the flip flag set equals the byte
sequence transmitted by flush_region on the point-reflected rectangle with
the flip flag cleared. -/
theorem claim_C8 (cs : Bool) (buf : List Nat) (x y w h : Nat)
    (hx : x + w ≤ WIDTH) (hy : y + h ≤ HEIGHT) :
    spiBytes (flushRegionTrace ⟨cs, true, buf⟩ x y w h) =
      spiBytes (flushRegionTrace ⟨cs, false, buf⟩ (WIDTH - x - w) (HEIGHT - y - h) w h) := by
  have key : flushRegionTrace ⟨cs, true, buf⟩ x y w h =
      flushRegionTrace ⟨cs, false, buf⟩ (WIDTH - x - w) (HEIGHT - y - h) w h := by
    by_cases hw : 0 < w
    · by_cases hh : 0 < h
      · rw [flushRegionTrace_pos _ x y w h (by omega) (by omega) hw hh,
          flushRegionTrace_pos _ (WIDTH - x - w) (HEIGHT - y - h) w h
            (by omega) (by omega) hw hh]
        rw [if_neg (show ¬x + w > WIDTH by omega),
          if_neg (show ¬y + h > HEIGHT by omega),
          if_neg (show ¬WIDTH - x - w + w > WIDTH by omega),
          if_neg (show ¬HEIGHT - y - h + h > HEIGHT by omega)]
        show flushRegionCore cs buf (WIDTH - (x + w)) (HEIGHT - (y + h)) w h =
          flushRegionCore cs buf (WIDTH - x - w) (HEIGHT - y - h) w h
        rw [show WIDTH - (x + w) = WIDTH - x - w by omega,
          show HEIGHT - (y + h) = HEIGHT - y - h by omega]
      · rw [flushRegionTrace_empty _ x y w h (by omega),
          flushRegionTrace_empty _ _ _ w h (by omega)]
    · rw [flushRegionTrace_empty _ x y w h (by omega),
        flushRegionTrace_empty _ _ _ w h (by omega)]
  rw [key]

/-- Witness for C8: region (20, 10, 30, 5) against its point reflection
(78, 49, 30, 5) on a zeroed buffer with a CS pin. -/
theorem claim_C8_witness :
    (20 + 30 ≤ WIDTH ∧ 10 + 5 ≤ HEIGHT) ∧
    spiBytes (flushRegionTrace ⟨true, true, List.replicate BUFFER_SIZE 0⟩ 20 10 30 5) =
      spiBytes (flushRegionTrace ⟨true, false, List.replicate BUFFER_SIZE 0⟩
        (WIDTH - 20 - 30) (HEIGHT - 10 - 5) 30 5) :=
  ⟨⟨by decide, by decide⟩,
   claim_C8 true (List.replicate BUFFER_SIZE 0) 20 10 30 5 (by decide) (by decide)⟩

/-- C9: flush reads the buffer deterministically and leaves the driver state
(in particular the buffer) unchanged, so two successive full flushes with no
intervening mutation transmit byte-for-byte identical traces. -/
theorem claim_C9 (d : Driver) :
    (flush (flush d).1).2 = (flush d).2 ∧ (flush d).1 = d :=
  ⟨rfl, rfl⟩

set_option maxRecDepth 100000 in
/-- C10: the index-bounds claim fails on the source. clear_buffer_region with
the accepted, already-clamped full-screen rectangle (0, 0, 128, 64) writes
buffer index 1024, one past the end of the 1024-byte buffer (a panic in the
source); and with rectangle (0, 0, 128, 2) it writes an index in row 2,
outside the addressed rows 0..2. Both overshoots come from
end = (adj_x + w) / 8 + 1 (lib.rs line 290). -/
theorem claim_C10_bug :
    (1024 ∈ clearRegionIndices false 0 0 128 64 ∧ BUFFER_SIZE = 1024) ∧
    (∃ i ∈ clearRegionIndices false 0 0 128 2, 2 * ROW_SIZE ≤ i) := by
  constructor
  · exact ⟨by decide, rfl⟩
  · decide

end ST7920
